import Mathlib

/-!
Shallow embedding of the GitHub autocomplete widget core
(`gh-repo-autocomplete-component`): error classification, result
sorting, keyboard navigation, dropdown visual-state derivation, the
keyed query cache, and the retry policy, with theorems checking the
specification claims against these definitions.
-/

set_option maxRecDepth 40000

namespace GHAC

/-! ## Data model (src/types/github.ts) -/

/-- Error categories of `ErrorType` in src/types/github.ts. -/
inductive ErrorType
  | network
  | rate_limit
  | timeout
  | server
  | client
  | abort
  | generic
deriving DecidableEq, Repr

/-- Structured error information, `SearchError` in src/types/github.ts.
`resetTime` is the optional Unix timestamp of the rate-limit reset. -/
structure SearchError where
  type : ErrorType
  message : String
  resetTime : Option Int
deriving DecidableEq, Repr

/-- Unified search result, `SearchResultItem` in src/types/github.ts.
`itemType` embeds the `type : "repo" | "user"` field (`true` = repo). -/
structure SearchResultItem where
  id : String
  itemType : Bool
  name : String
  avatarUrl : String
  url : String
  stars : Option Nat
deriving DecidableEq, Repr

/-- Rate limit header data, `RateLimitInfo` in src/types/github.ts. -/
structure RateLimitInfo where
  limit : Nat
  remaining : Nat
  reset : Nat
deriving DecidableEq, Repr

/-- Combined transport response, `SearchResponse` in src/types/github.ts. -/
structure SearchResponse where
  results : List SearchResultItem
  rateLimit : Option RateLimitInfo
deriving DecidableEq, Repr

/-- A raw rejected value as observed by `discriminateError` and the
retry predicate: either a JS `Error` object carrying a `name` and a
`message`, or any non-`Error` value. -/
inductive RawFailure
  | jsError (name : String) (message : String)
  | nonError
deriving DecidableEq, Repr

/-! ## String scanning helpers (JS builtins used by the source) -/

/-- Model of JS `String.prototype.includes`: `pat` occurs as a
contiguous substring of `s`. -/
def includesB (s pat : String) : Bool :=
  s.toList.tails.any (fun t => pat.toList.isPrefixOf t)

/-- Decimal value of a digit run, as computed by JS `parseInt(ds, 10)`
for a nonempty all-digit string. -/
def digitsToNat (ds : List Char) : Nat :=
  ds.foldl (fun n c => n * 10 + (c.toNat - 48)) 0

/-- Attempt to match the regex `GitHub API error: (\d+)` at the head of
the character list: the literal pattern followed by a maximal digit run
(the capture handed to `parseInt`). -/
def matchStatusAt (l : List Char) : Option Nat :=
  if ("GitHub API error: ".toList).isPrefixOf l then
    let rest := l.drop "GitHub API error: ".length
    let ds := rest.takeWhile Char.isDigit
    if ds.isEmpty then none else some (digitsToNat ds)
  else none

/-- Left-to-right scan for the first match of
`GitHub API error: (\d+)`, as JS `message.match(...)` performs. -/
def findStatus : List Char → Option Nat
  | [] => none
  | c :: t =>
    match matchStatusAt (c :: t) with
    | some n => some n
    | none => findStatus t

/-- Status code extracted from an error message by
`message.match(/GitHub API error: (\d+)/)` in error-utils. -/
def matchApiStatus (msg : String) : Option Nat :=
  findStatus msg.toList

/-! ## Error classifier (`discriminateError` in error-utils) -/

/-- The network-message signature tested by `discriminateError`
(error-utils lines 41-45). -/
def isNetworkMsg (message : String) : Bool :=
  includesB message "Failed to fetch"
    || includesB message "NetworkError"
    || includesB message "Network request failed"

/-- The timeout signature tested by `discriminateError`
(error-utils lines 53-57). -/
def isTimeoutSig (name message : String) : Bool :=
  name = "TimeoutError"
    || includesB message "timeout"
    || includesB message "timed out"

/-- Embedding of `discriminateError` from src/lib/utils/error-utils.ts.
The ambient `navigator.onLine` read is passed as the `online`
parameter; a non-`Error` argument is the `RawFailure.nonError` case. -/
def discriminateError (online : Bool) (v : RawFailure) : SearchError :=
  match v with
  | .nonError => ⟨.generic, "An unknown error occurred.", none⟩
  | .jsError name message =>
    if name = "AbortError" then
      ⟨.abort, "Request was cancelled.", none⟩
    else if !online then
      ⟨.network, "Connection error. Check your internet access.", none⟩
    else if isNetworkMsg message then
      ⟨.network, "Connection error. Check your internet access.", none⟩
    else if isTimeoutSig name message then
      ⟨.timeout, "Request timed out.", none⟩
    else
      match matchApiStatus message with
      | some statusCode =>
        if statusCode = 429 then
          ⟨.rate_limit, "API rate limit exceeded.", none⟩
        else if 500 ≤ statusCode ∧ statusCode < 600 then
          ⟨.server,
            "GitHub API is currently unavailable. Please try again later.",
            none⟩
        else if 400 ≤ statusCode ∧ statusCode < 500 then
          ⟨.client, "An error occurred. Please try again.", none⟩
        else
          ⟨.generic, "An error occurred. Please try again.", none⟩
      | none => ⟨.generic, "An error occurred. Please try again.", none⟩

/-! ## Error message formatting (error-utils) -/

/-- Embedding of `formatResetTime` from error-utils; `now` stands for
`Math.floor(Date.now() / 1000)`. -/
def formatResetTime (now : Int) (resetTimestamp : Int) : String :=
  let diffSeconds := resetTimestamp - now
  if diffSeconds ≤ 0 then
    "a few seconds"
  else
    let minutes := diffSeconds / 60
    let hours := minutes / 60
    if hours > 0 then
      if hours = 1 then "1 hour" else toString hours ++ " hours"
    else if minutes > 0 then
      if minutes = 1 then "1 minute" else toString minutes ++ " minutes"
    else
      "a few seconds"

/-- Embedding of `getErrorMessage` from error-utils; `now` is the
ambient clock read inside `formatResetTime`. -/
def getErrorMessage (now : Int) (error : SearchError) : String :=
  match error.type with
  | .network => "Connection error. Check your internet access."
  | .rate_limit =>
    match error.resetTime with
    | some resetTime =>
      if resetTime = 0 then
        "API rate limit exceeded. Please try again later."
      else
        "API rate limit exceeded. Please try again in "
          ++ formatResetTime now resetTime ++ "."
    | none => "API rate limit exceeded. Please try again later."
  | .timeout => "Request timed out."
  | .server => "GitHub API is currently unavailable. Please try again later."
  | .client => "An error occurred. Please try again."
  | .abort => ""
  | .generic => "An error occurred. Please try again."

/-! ## Result sorting (`sortResultsAlphabetically` in format.ts) -/

/-- Helper bound: dropping a prefix never lengthens a list. -/
theorem length_dropWhile_le (p : Char → Bool) :
    ∀ l : List Char, (l.dropWhile p).length ≤ l.length := by
  intro l
  induction l with
  | nil => simp [List.dropWhile]
  | cons c cs ih =>
    simp only [List.dropWhile]
    split
    · exact Nat.le_succ_of_le ih
    · simp

/-- Collation key of a string under the comparator options
`{ sensitivity: "base", numeric: true }` passed to `localeCompare` in
format.ts: characters are case-folded, and each maximal digit run is
packed into a single numeric token (offset past every character code,
so digit runs collate after plain characters); ASCII-level model of
the locale collation. -/
def natTokens : List Char → List Nat
  | [] => []
  | c :: cs =>
    if c.isDigit then
      (1114112 + digitsToNat (c :: cs.takeWhile Char.isDigit))
        :: natTokens (cs.dropWhile Char.isDigit)
    else
      c.toLower.toNat :: natTokens cs
termination_by l => l.length
decreasing_by
  · simp only [List.length_cons]
    exact Nat.lt_succ_of_le (length_dropWhile_le _ _)
  · simp

/-- Collation key of a string, per `natTokens`. -/
def strKeys (s : String) : List Nat :=
  natTokens s.toList

/-- Lexicographic order on collation keys: `lexLe x y` models
`localeCompare ≤ 0` for the strings whose keys are `x` and `y`. -/
def lexLe : List Nat → List Nat → Bool
  | [], _ => true
  | _ :: _, [] => false
  | a :: as, b :: bs => decide (a < b) || (decide (a = b) && lexLe as bs)

/-- The collation order is total. -/
theorem lexLe_total : ∀ x y : List Nat, (lexLe x y || lexLe y x) = true := by
  intro x
  induction x with
  | nil => intro y; cases y <;> simp [lexLe]
  | cons a as ih =>
    intro y
    cases y with
    | nil => simp [lexLe]
    | cons b bs =>
      simp only [lexLe, Bool.or_eq_true, Bool.and_eq_true, decide_eq_true_eq]
      rcases Nat.lt_trichotomy a b with h | h | h
      · exact Or.inl (Or.inl h)
      · subst h
        have := ih bs
        simp only [Bool.or_eq_true] at this
        rcases this with h' | h'
        · exact Or.inl (Or.inr ⟨rfl, h'⟩)
        · exact Or.inr (Or.inr ⟨rfl, h'⟩)
      · exact Or.inr (Or.inl h)

/-- The collation order is transitive. -/
theorem lexLe_trans :
    ∀ x y z : List Nat,
      lexLe x y = true → lexLe y z = true → lexLe x z = true := by
  intro x
  induction x with
  | nil => intro y z _ _; cases z <;> simp [lexLe]
  | cons a as ih =>
    intro y z hxy hyz
    cases y with
    | nil => simp [lexLe] at hxy
    | cons b bs =>
      cases z with
      | nil => simp [lexLe] at hyz
      | cons c cs =>
        simp only [lexLe, Bool.or_eq_true, Bool.and_eq_true,
          decide_eq_true_eq] at hxy hyz ⊢
        rcases hxy with h1 | ⟨h1, h1'⟩ <;> rcases hyz with h2 | ⟨h2, h2'⟩
        · exact Or.inl (h1.trans h2)
        · exact Or.inl (h2 ▸ h1)
        · exact Or.inl (h1 ▸ h2)
        · exact Or.inr ⟨h1.trans h2, ih bs cs h1' h2'⟩

/-- The comparator of format.ts:
`a.name.localeCompare(b.name, undefined, {sensitivity: "base",
numeric: true}) ≤ 0`, via the collation keys. -/
def itemLe (a b : SearchResultItem) : Bool :=
  lexLe (strKeys a.name) (strKeys b.name)

/-- Comparator transitivity, lifted from `lexLe_trans`. -/
theorem itemLe_trans :
    ∀ a b c : SearchResultItem,
      itemLe a b = true → itemLe b c = true → itemLe a c = true :=
  fun _ _ _ => lexLe_trans _ _ _

/-- Comparator totality, lifted from `lexLe_total`. -/
theorem itemLe_total :
    ∀ a b : SearchResultItem, (itemLe a b || itemLe b a) = true :=
  fun _ _ => lexLe_total _ _

/-- Value-level embedding of `sortResultsAlphabetically` in format.ts:
`[...results].sort(cmp)` is a stable sort (ES2019) of a copy of the
array by the `localeCompare`-based comparator, modeled by `mergeSort`
with `itemLe`. -/
def sortResultsAlphabetically
    (results : List SearchResultItem) : List SearchResultItem :=
  results.mergeSort itemLe

/-- A JS heap of arrays, for stating the no-mutation half of the sort
contract with reference semantics: a reference is an index into the
store. -/
structure JSStore where
  arrays : List (List SearchResultItem)
deriving DecidableEq, Repr

/-- Dereference: array contents held by a reference. -/
def readArr (s : JSStore) (r : Nat) : List SearchResultItem :=
  (s.arrays[r]?).getD []

/-- Reference-level embedding of `sortResultsAlphabetically`:
`[...results]` allocates a fresh array copying the argument, then
`.sort(cmp)` sorts that fresh array in place and returns its
reference. The argument reference `r` is never written. -/
def sortResultsRef (s : JSStore) (r : Nat) : JSStore × Nat :=
  let copyRef := s.arrays.length
  let copied := s.arrays ++ [readArr s r]
  (⟨copied.set copyRef (sortResultsAlphabetically (readArr s r))⟩, copyRef)

/-! ## Keyboard navigation (src/hooks/useKeyboardNavigation.ts) -/

/-- Key classes distinguished by `handleKeyDown`; every key other than
the four handled ones is `other`. -/
inductive Key
  | arrowDown
  | arrowUp
  | enter
  | escape
  | other
deriving DecidableEq, Repr

/-- Embedding of the reset effect at useKeyboardNavigation.ts:49-53:
on any change of `isOpen` or `itemsCount`, the active index is set to
`-1` exactly when the dropdown is closed or the list is empty, and is
left untouched otherwise. -/
def resetActiveIndexEffect (isOpen : Bool) (itemsCount : Nat)
    (activeIndex : Int) : Int :=
  if !isOpen || itemsCount == 0 then -1 else activeIndex

/-- Embedding of `handleKeyDown` (useKeyboardNavigation.ts:72-123).
Returns the next active index and, for Enter, the index passed to the
`onSelect` callback. -/
def handleKeyDown (isOpen : Bool) (itemsCount : Nat) (activeIndex : Int)
    (k : Key) : Int × Option Int :=
  if !isOpen || itemsCount == 0 then
    (activeIndex, none)
  else
    match k with
    | .arrowDown =>
      (if activeIndex == -1 || decide ((itemsCount : Int) - 1 ≤ activeIndex)
        then 0 else activeIndex + 1, none)
    | .arrowUp =>
      (if decide (activeIndex ≤ 0) then (itemsCount : Int) - 1
        else activeIndex - 1, none)
    | .enter =>
      (activeIndex,
        if decide (0 ≤ activeIndex) then some activeIndex
        else if decide (0 < itemsCount) then some 0
        else none)
    | .escape => (-1, none)
    | .other => (activeIndex, none)

/-! ## Dropdown visual-state flags (GitHubAutocomplete.tsx:174-190) -/

/-- Flag `showHint` of GitHubAutocomplete.tsx:175. -/
def showHint (qLen : Nat) : Bool :=
  decide (0 < qLen) && decide (qLen < 3)

/-- Flag `showLoading` of GitHubAutocomplete.tsx:178-181: real fetch
loading, or the debounce window where the debounced query lags. -/
def showLoading (qLen dqLen : Nat) (isLoading : Bool) : Bool :=
  decide (3 ≤ qLen) && (isLoading || (decide (3 ≤ qLen) && decide (dqLen < 3)))

/-- Flag `showError` of GitHubAutocomplete.tsx:183: a present
non-abort error while the raw query is long enough. -/
def showError (isError : Bool) (error : Option SearchError)
    (qLen : Nat) : Bool :=
  isError
    && (match error with
        | some e => !(e.type == ErrorType.abort)
        | none => false)
    && decide (3 ≤ qLen)

/-- Flag `showEmpty` of GitHubAutocomplete.tsx:184-185. -/
def showEmpty (isLoading isError : Bool) (count dqLen qLen : Nat) : Bool :=
  !isLoading && !isError && decide (count = 0)
    && decide (3 ≤ dqLen) && decide (3 ≤ qLen)

/-- Flag `showResults` of GitHubAutocomplete.tsx:186-187. -/
def showResults (isLoading isError : Bool) (count dqLen qLen : Nat) : Bool :=
  !isLoading && !isError && decide (0 < count)
    && decide (3 ≤ dqLen) && decide (3 ≤ qLen)

/-- The `enabled` condition of the fetch: `enabled` is the `isOpen`
flag passed at GitHubAutocomplete.tsx:68, and useGitHubSearch.ts:53
further requires `query.length >= 3` on the debounced query; a fetch
is dispatched to the transport only when this holds for a fresh key. -/
def queryEnabled (isOpen : Bool) (debouncedQuery : String) : Bool :=
  isOpen && decide (3 ≤ debouncedQuery.length)

/-- The `isOpen` value set by `handleInputChange`
(GitHubAutocomplete.tsx:92-105): open exactly when the new text is
nonempty. -/
def inputChangeOpen (newQuery : String) : Bool :=
  decide (0 < newQuery.length)

/-- Embedding of the close-on-empty effect
(GitHubAutocomplete.tsx:167-172): the open flag after the effect runs. -/
def closeOnEmptyEffect (isOpen : Bool) (qLen : Nat) : Bool :=
  if isOpen && qLen == 0 then false else isOpen

/-- Length of a string after JS `String.prototype.trim`, used to state
the specification notion of "trimmed length" (the source never
trims). -/
def trimmedLength (s : String) : Nat :=
  ((s.toList.dropWhile Char.isWhitespace).reverse.dropWhile
    Char.isWhitespace).length

/-! ## Selection path (GitHubAutocomplete.tsx:78-89, 118-133) -/

/-- The component state touched by selection. -/
structure WidgetState where
  isOpen : Bool
  activeIndex : Int
deriving DecidableEq, Repr

/-- Outward effects of a selection: URLs opened via `window.open` and
items passed to the external `onSelect` prop. -/
structure SelectionEffects where
  openedUrls : List String
  notified : List SearchResultItem
deriving DecidableEq, Repr

/-- Embedding of `handleResultSelect` (GitHubAutocomplete.tsx:118-133):
open the result URL, notify the external callback, close the dropdown
and reset the navigation index. -/
def handleResultSelect (result : SearchResultItem)
    (_st : WidgetState) : WidgetState × SelectionEffects :=
  (⟨false, -1⟩, ⟨[result.url], [result]⟩)

/-- Embedding of the `onSelect` callback wired into
`useKeyboardNavigation` (GitHubAutocomplete.tsx:81-86):
`sortedResults[index]` is looked up and `handleResultSelect` runs only
when an item exists at that index. -/
def navOnSelect (sortedResults : List SearchResultItem) (index : Nat)
    (st : WidgetState) : WidgetState × SelectionEffects :=
  match sortedResults[index]? with
  | some result => handleResultSelect result st
  | none => (st, ⟨[], []⟩)

/-! ## Keyed query cache (useGitHubSearch.ts with TanStack Query)

Models the contract of `useQuery` with
`queryKey = ["github-search", query]` as consumed by `useGitHubSearch`
(useGitHubSearch.ts:45-55): every distinct key owns an independent
outcome cell; the hook observes the cell of its current key; the fetch
started for a key writes, on resolution, to that key's cell only. -/

/-- Outcome of a dispatched query, the `SearchOutcome` of the spec. -/
inductive Outcome
  | loading
  | success (response : SearchResponse)
  | failure (error : SearchError)
deriving DecidableEq, Repr

/-- State of the keyed cache: one optional outcome per key, plus the
key currently rendered (the current debounced query). -/
structure QueryState where
  cache : String → Option Outcome
  current : String

/-- Dispatching a (debounced) query switches the current key to it and
ensures the key owns a cell; a prior cached outcome for that key is
reused, otherwise the cell starts loading. -/
def dispatch (key : String) (qs : QueryState) : QueryState :=
  { current := key
    cache := fun k =>
      if k = key then some ((qs.cache key).getD .loading) else qs.cache k }

/-- Resolution of the fetch started for `key` writes its outcome into
that key's cell, regardless of which key is current by then. -/
def resolve (key : String) (o : Outcome) (qs : QueryState) : QueryState :=
  { qs with
    cache := fun k => if k = key then some o else qs.cache k }

/-- The outcome visible to the component: the cell of the current key. -/
def visibleOutcome (qs : QueryState) : Option Outcome :=
  qs.cache qs.current

/-! ## Retry policy (`queryClient` in src/main.tsx:16-38) -/

/-- The regex test `/4\d{2}/`: a literal `4` followed by two digits
occurs in the message. -/
def has4xx (s : String) : Bool :=
  s.toList.tails.any (fun t =>
    match t with
    | '4' :: a :: b :: _ => a.isDigit && b.isDigit
    | _ => false)

/-- Embedding of the `retry` predicate of the QueryClient
(main.tsx:16-34): no retry for abort, none when the message signals a
rate limit or a 4xx API status, otherwise retry while fewer than 3
failures occurred. -/
def shouldRetry (failureCount : Nat) (error : RawFailure) : Bool :=
  match error with
  | .jsError name message =>
    if name = "AbortError" then false
    else if includesB message "429"
        || (includesB message "GitHub API error" && has4xx message) then false
    else decide (failureCount < 3)
  | .nonError => decide (failureCount < 3)

/-- Embedding of `retryDelay` (main.tsx:36-38). -/
def retryDelay (attemptIndex : Nat) : Nat :=
  min (1000 * 2 ^ attemptIndex) 30000

/-- The message thrown by the transport for a non-ok HTTP response
(github-api.ts:164). -/
def apiErrorMessage (status : Nat) : String :=
  "GitHub API error: " ++ toString status

/-! ## Helper characterizations of the show-flags -/

/-- Propositional reading of `showHint`. -/
theorem showHint_true_iff {qLen : Nat} :
    showHint qLen = true ↔ 0 < qLen ∧ qLen < 3 := by
  simp [showHint]

/-- Propositional reading of `showLoading`. -/
theorem showLoading_true_iff {qLen dqLen : Nat} {isLoading : Bool} :
    showLoading qLen dqLen isLoading = true
      ↔ 3 ≤ qLen ∧ (isLoading = true ∨ dqLen < 3) := by
  cases isLoading <;> simp [showLoading]

/-- Necessary conditions for `showError`. -/
theorem showError_true {isError : Bool} {error : Option SearchError}
    {qLen : Nat} :
    showError isError error qLen = true → isError = true ∧ 3 ≤ qLen := by
  cases isError
  · intro h
    simp [showError] at h
  · cases error
    · intro h
      simp [showError] at h
    · intro h
      simp [showError] at h
      exact ⟨rfl, h.2⟩

/-- Propositional reading of `showEmpty`. -/
theorem showEmpty_true_iff {il ie : Bool} {c d q : Nat} :
    showEmpty il ie c d q = true
      ↔ il = false ∧ ie = false ∧ c = 0 ∧ 3 ≤ d ∧ 3 ≤ q := by
  cases il <;> cases ie <;> simp [showEmpty, and_assoc]

/-- Propositional reading of `showResults`. -/
theorem showResults_true_iff {il ie : Bool} {c d q : Nat} :
    showResults il ie c d q = true
      ↔ il = false ∧ ie = false ∧ 0 < c ∧ 3 ≤ d ∧ 3 ≤ q := by
  cases il <;> cases ie <;> simp [showResults, and_assoc]

/-! ## Claim theorems -/

/-- C1: for two distinct debounced queries dispatched in order, the
visible outcome reflects only the most recently dispatched key: a
resolution of the older request changes nothing visible while the
newer one is pending, and even when the older request resolves after
the newer one, the visible outcome stays the newer key's outcome
(last-dispatched-wins, not last-resolved-wins). -/
theorem dispatch_supersedes_stale_resolution
    (qs : QueryState) (k1 k2 : String) (o1 o2 : Outcome) (hne : k1 ≠ k2) :
    visibleOutcome (resolve k1 o1 (dispatch k2 (dispatch k1 qs)))
      = visibleOutcome (dispatch k2 (dispatch k1 qs))
    ∧ visibleOutcome (resolve k2 o2 (dispatch k2 (dispatch k1 qs)))
      = some o2
    ∧ visibleOutcome
        (resolve k1 o1 (resolve k2 o2 (dispatch k2 (dispatch k1 qs))))
      = some o2 := by
  have hne' : ¬(k2 = k1) := fun h => hne h.symm
  refine ⟨?_, ?_, ?_⟩ <;>
    simp [visibleOutcome, resolve, dispatch, hne']

/-- C1 witness: the spec scenario with keys `"abc"` then `"abcd"`,
where the fetch for `"abc"` resolves last. -/
theorem dispatch_supersedes_stale_resolution_witness :
    ("abc" : String) ≠ "abcd"
    ∧ visibleOutcome
        (resolve "abc" (.success ⟨[], none⟩)
          (resolve "abcd" (.failure ⟨.server, "s", none⟩)
            (dispatch "abcd" (dispatch "abc" ⟨fun _ => none, ""⟩))))
      = some (.failure ⟨.server, "s", none⟩) :=
  ⟨by decide,
    (dispatch_supersedes_stale_resolution ⟨fun _ => none, ""⟩ "abc" "abcd"
      (.success ⟨[], none⟩) (.failure ⟨.server, "s", none⟩)
      (by decide)).2.2⟩

/-- C7: every classified error of category `abort` produces the empty
user-facing message from `getErrorMessage`, and the `showError` flag
that gates the error visual state is false for it, so an abort outcome
is never rendered as a hard error. -/
theorem abort_is_silent (now : Int) (e : SearchError) (h : e.type = .abort) :
    getErrorMessage now e = ""
    ∧ ∀ (isErr : Bool) (qLen : Nat), showError isErr (some e) qLen = false := by
  constructor
  · unfold getErrorMessage
    rw [h]
  · intro isErr qLen
    simp [showError, h]

/-- C7 witness: the concrete abort error produced by the classifier. -/
theorem abort_is_silent_witness :
    (discriminateError true (.jsError "AbortError" "x")).type = .abort
    ∧ getErrorMessage 0 ⟨.abort, "Request was cancelled.", none⟩ = ""
    ∧ showError true (some ⟨.abort, "Request was cancelled.", none⟩) 5
        = false :=
  ⟨by decide,
    (abort_is_silent 0 ⟨.abort, "Request was cancelled.", none⟩ rfl).1,
    (abort_is_silent 0 ⟨.abort, "Request was cancelled.", none⟩ rfl).2 true 5⟩

/-- C10: a selection requested at an index at or beyond the sorted
result count is a total no-op: the guarded lookup finds nothing, so no
URL is opened, the external callback is not invoked, and the widget
state (open flag and navigation index) is unchanged. -/
theorem out_of_range_selection_noop
    (results : List SearchResultItem) (index : Nat) (st : WidgetState)
    (h : results.length ≤ index) :
    navOnSelect results index st = (st, ⟨[], []⟩) := by
  unfold navOnSelect
  rw [List.getElem?_eq_none h]

/-- C10 witness: selecting index 2 while the list shrank to one item. -/
theorem out_of_range_selection_noop_witness :
    ([⟨"repo:1", true, "a", "", "u", none⟩] : List SearchResultItem).length ≤ 2
    ∧ navOnSelect [⟨"repo:1", true, "a", "", "u", none⟩] 2 ⟨true, 2⟩
      = (⟨true, 2⟩, ⟨[], []⟩) :=
  ⟨by decide,
    out_of_range_selection_noop [⟨"repo:1", true, "a", "", "u", none⟩] 2
      ⟨true, 2⟩ (by decide)⟩

/-- C2 counterexample: the query `"a  "` (letter plus two spaces) has
trimmed length 1 < 3, yet the fetch is enabled once it becomes the
debounced query of an open dropdown, and its visual state is not the
hint: the source gates on the untrimmed length, not the trimmed one. -/
theorem short_trimmed_query_counterexample :
    trimmedLength "a  " < 3
    ∧ 0 < ("a  " : String).length
    ∧ queryEnabled true "a  " = true
    ∧ showHint ("a  " : String).length = false := by
  decide

/-- C3 counterexample: with the dropdown open and the list shrunk to 2
items while index 4 was highlighted, the reset effect (which fires on
every items-count change) leaves the index at 4, outside `[-1, N-1]`:
the source resets only when the list becomes empty or the dropdown
closes, never clamping on a shrink to a non-zero size. -/
theorem shrink_below_index_counterexample :
    resetActiveIndexEffect true 2 4 = 4
    ∧ ¬(resetActiveIndexEffect true 2 4 < (2 : Int)) := by
  decide

/-- C5 counterexample: at raw length 3, debounced length 0, loading
flag false and a present server error, `showLoading` (debounce window)
and `showError` are both true, so the five derived flags are not
pairwise mutually exclusive over all combinations of their inputs. -/
theorem visual_flags_overlap_counterexample :
    showLoading 3 0 false = true
    ∧ showError true
        (some ⟨.server,
          "GitHub API is currently unavailable. Please try again later.",
          none⟩) 3 = true := by
  decide

/-- C2 (amended): for every query whose raw (untrimmed) length is
below 3 no fetch is enabled, the visual state is the hint exactly when
the query is nonempty (no other flag can hold), and an empty query
forces the dropdown closed. -/
theorem short_query_never_fetches (q : String) (h : q.length < 3) :
    (∀ isOpen : Bool, queryEnabled isOpen q = false)
    ∧ (0 < q.length → showHint q.length = true)
    ∧ (q.length = 0 → inputChangeOpen q = false
        ∧ ∀ isOpen : Bool, closeOnEmptyEffect isOpen q.length = false)
    ∧ (∀ (dqLen : Nat) (isLoading : Bool),
        showLoading q.length dqLen isLoading = false)
    ∧ (∀ (isErr : Bool) (e : Option SearchError),
        showError isErr e q.length = false)
    ∧ (∀ (il ie : Bool) (c d : Nat), showEmpty il ie c d q.length = false)
    ∧ (∀ (il ie : Bool) (c d : Nat), showResults il ie c d q.length = false) := by
  have h3 : ¬(3 ≤ q.length) := by omega
  refine ⟨?_, ?_, ?_, ?_, ?_, ?_, ?_⟩
  · intro isOpen
    simp [queryEnabled, h3]
  · intro h0
    simp [showHint, h0, h]
  · intro h0
    refine ⟨by simp [inputChangeOpen, h0], ?_⟩
    intro isOpen
    cases isOpen <;> simp [closeOnEmptyEffect, h0]
  · intro dqLen isLoading
    simp [showLoading, h3]
  · intro isErr e
    simp [showError, h3]
  · intro il ie c d
    simp [showEmpty, h3]
  · intro il ie c d
    simp [showResults, h3]

/-- C2 witness: the two-character query `"ab"`. -/
theorem short_query_never_fetches_witness :
    ("ab" : String).length < 3
    ∧ queryEnabled true "ab" = false
    ∧ showHint ("ab" : String).length = true :=
  ⟨by decide,
    (short_query_never_fetches "ab" (by decide)).1 true,
    (short_query_never_fetches "ab" (by decide)).2.1 (by decide)⟩

/-- C3 (amended): the index resets to `-1` exactly when the dropdown
closes or the list becomes empty — a shrink to a smaller non-zero size
leaves the index untouched (no clamping) — and every keyboard
transition preserves the invariant `-1 ≤ index < N`. -/
theorem nav_index_invariant_amended (isOpen : Bool) (n : Nat) (i : Int) :
    ((isOpen = false ∨ n = 0) → resetActiveIndexEffect isOpen n i = -1)
    ∧ (isOpen = true → n ≠ 0 → resetActiveIndexEffect isOpen n i = i)
    ∧ (-1 ≤ i → i < (n : Int) →
        ∀ k : Key, -1 ≤ (handleKeyDown isOpen n i k).1
          ∧ (handleKeyDown isOpen n i k).1 < (n : Int)) := by
  refine ⟨?_, ?_, ?_⟩
  · rintro (h | h)
    · subst h
      simp [resetActiveIndexEffect]
    · subst h
      simp [resetActiveIndexEffect]
  · intro h1 h2
    simp [resetActiveIndexEffect, h1, h2]
  · intro h1 h2 k
    cases isOpen with
    | false =>
      simp only [handleKeyDown, Bool.not_false, Bool.true_or, if_true]
      exact ⟨h1, h2⟩
    | true =>
      by_cases hn : n = 0
      · subst hn
        have hid : handleKeyDown true 0 i k = (i, none) := by
          simp [handleKeyDown]
        rw [hid]
        exact ⟨h1, h2⟩
      · have hcond : ¬((!true || n == 0) = true) := by simp [hn]
        unfold handleKeyDown
        rw [if_neg hcond]
        have hn' : 1 ≤ (n : Int) := by
          have : 1 ≤ n := Nat.one_le_iff_ne_zero.mpr hn
          exact_mod_cast this
        cases k <;>
          simp only [Bool.or_eq_true, beq_iff_eq, decide_eq_true_eq] <;>
          first
          | (split_ifs <;> constructor <;> omega)
          | (constructor <;> omega)

/-- C3 witness: closing the dropdown resets index 2 to `-1`, and an
ArrowDown from the last of 5 items stays in range. -/
theorem nav_index_invariant_amended_witness :
    resetActiveIndexEffect false 5 2 = -1
    ∧ (-1 ≤ (handleKeyDown true 5 4 .arrowDown).1
        ∧ (handleKeyDown true 5 4 .arrowDown).1 < (5 : Int)) :=
  ⟨(nav_index_invariant_amended false 5 2).1 (Or.inl rfl),
    (nav_index_invariant_amended true 5 4).2.2 (by decide) (by decide)
      .arrowDown⟩

/-- C4: for an open dropdown with `N > 0` items and an in-range index,
ArrowDown wraps from `-1` and from `N-1` to `0` and otherwise
increments, ArrowUp wraps from `-1` and from `0` to `N-1` and
otherwise decrements, Enter selects the highlighted item or item `0`
when nothing is highlighted, and every key is a no-op while the
dropdown is closed or the list is empty. -/
theorem keyboard_transition_spec (n : Nat) (i : Int)
    (hn : 0 < n) (h1 : -1 ≤ i) (h2 : i ≤ (n : Int) - 1) :
    ((handleKeyDown true n i .arrowDown).1
        = if i = -1 ∨ i = (n : Int) - 1 then 0 else i + 1)
    ∧ ((handleKeyDown true n i .arrowUp).1
        = if i = -1 ∨ i = 0 then (n : Int) - 1 else i - 1)
    ∧ ((handleKeyDown true n i .enter).1 = i)
    ∧ ((handleKeyDown true n i .enter).2
        = if 0 ≤ i then some i else some 0)
    ∧ (∀ (isOpen : Bool) (m : Nat) (j : Int) (k : Key),
        isOpen = false ∨ m = 0 → handleKeyDown isOpen m j k = (j, none)) := by
  have hcond : ¬((!true || n == 0) = true) := by
    simp [Nat.pos_iff_ne_zero.mp hn]
  have hn' : 1 ≤ (n : Int) := by exact_mod_cast hn
  refine ⟨?_, ?_, ?_, ?_, ?_⟩
  · unfold handleKeyDown
    rw [if_neg hcond]
    simp only [Bool.or_eq_true, beq_iff_eq, decide_eq_true_eq]
    split_ifs <;> omega
  · unfold handleKeyDown
    rw [if_neg hcond]
    simp only [decide_eq_true_eq]
    split_ifs <;> omega
  · unfold handleKeyDown
    rw [if_neg hcond]
  · unfold handleKeyDown
    rw [if_neg hcond]
    simp only [decide_eq_true_eq]
    by_cases hi : 0 ≤ i
    · simp [hi]
    · simp [hi, hn]
  · intro isOpen m j k hclosed
    rcases hclosed with h | h
    · subst h
      simp [handleKeyDown]
    · subst h
      simp [handleKeyDown]

/-- C4 witness: with 5 items, ArrowDown from index 4 wraps to 0 and
ArrowUp from `-1` lands on 4, the spec navigation-wrap example. -/
theorem keyboard_transition_spec_witness :
    ((handleKeyDown true 5 4 .arrowDown).1
        = if (4 : Int) = -1 ∨ (4 : Int) = (5 : Int) - 1 then 0 else 4 + 1)
    ∧ ((handleKeyDown true 5 (-1) .arrowUp).1
        = if (-1 : Int) = -1 ∨ (-1 : Int) = 0 then (5 : Int) - 1
          else -1 - 1) :=
  ⟨(keyboard_transition_spec 5 4 (by decide) (by decide) (by decide)).1,
    (keyboard_transition_spec 5 (-1) (by decide) (by decide)
      (by decide)).2.1⟩

/-- C5 (amended): the five derived show-flags are pairwise mutually
exclusive for every combination of inputs satisfying the two
invariants the keyed query cache maintains: the loading and error
flags are never both true, and an error is only present once the
debounced query reached length 3. Without those side conditions the
flags can overlap (see the counterexample). -/
theorem visual_flags_exclusive_amended (qLen dqLen count : Nat)
    (isLoading isError : Bool) (error : Option SearchError)
    (hx : (isLoading && isError) = false)
    (hd : isError = true → 3 ≤ dqLen) :
    ¬(showHint qLen = true ∧ showLoading qLen dqLen isLoading = true)
    ∧ ¬(showHint qLen = true ∧ showError isError error qLen = true)
    ∧ ¬(showHint qLen = true
        ∧ showEmpty isLoading isError count dqLen qLen = true)
    ∧ ¬(showHint qLen = true
        ∧ showResults isLoading isError count dqLen qLen = true)
    ∧ ¬(showLoading qLen dqLen isLoading = true
        ∧ showError isError error qLen = true)
    ∧ ¬(showLoading qLen dqLen isLoading = true
        ∧ showEmpty isLoading isError count dqLen qLen = true)
    ∧ ¬(showLoading qLen dqLen isLoading = true
        ∧ showResults isLoading isError count dqLen qLen = true)
    ∧ ¬(showError isError error qLen = true
        ∧ showEmpty isLoading isError count dqLen qLen = true)
    ∧ ¬(showError isError error qLen = true
        ∧ showResults isLoading isError count dqLen qLen = true)
    ∧ ¬(showEmpty isLoading isError count dqLen qLen = true
        ∧ showResults isLoading isError count dqLen qLen = true) := by
  refine ⟨?_, ?_, ?_, ?_, ?_, ?_, ?_, ?_, ?_, ?_⟩ <;> rintro ⟨ha, hb⟩
  · rw [showHint_true_iff] at ha
    have := (showLoading_true_iff.mp hb).1
    omega
  · rw [showHint_true_iff] at ha
    have := (showError_true hb).2
    omega
  · rw [showHint_true_iff] at ha
    have := (showEmpty_true_iff.mp hb).2.2.2.2
    omega
  · rw [showHint_true_iff] at ha
    have := (showResults_true_iff.mp hb).2.2.2.2
    omega
  · obtain ⟨-, hor⟩ := showLoading_true_iff.mp ha
    obtain ⟨hie, -⟩ := showError_true hb
    subst hie
    simp only [Bool.and_true] at hx
    rcases hor with h | h
    · rw [h] at hx
      cases hx
    · have := hd rfl
      omega
  · obtain ⟨-, hor⟩ := showLoading_true_iff.mp ha
    obtain ⟨hil, -, -, hdq, -⟩ := showEmpty_true_iff.mp hb
    rcases hor with h | h
    · rw [h] at hil
      cases hil
    · omega
  · obtain ⟨-, hor⟩ := showLoading_true_iff.mp ha
    obtain ⟨hil, -, -, hdq, -⟩ := showResults_true_iff.mp hb
    rcases hor with h | h
    · rw [h] at hil
      cases hil
    · omega
  · have h1 := (showError_true ha).1
    have h2 := (showEmpty_true_iff.mp hb).2.1
    rw [h1] at h2
    cases h2
  · have h1 := (showError_true ha).1
    have h2 := (showResults_true_iff.mp hb).2.1
    rw [h1] at h2
    cases h2
  · have h1 := (showEmpty_true_iff.mp ha).2.2.1
    have h2 := (showResults_true_iff.mp hb).2.2.1
    omega

/-- C5 witness: at query length 5 (debounced 5) with an error present
and loading false, the loading and error flags cannot both hold. -/
theorem visual_flags_exclusive_amended_witness :
    ((false && true) = false)
    ∧ ¬(showLoading 5 5 false = true
        ∧ showError true (some ⟨.server, "s", none⟩) 5 = true) :=
  ⟨rfl,
    (visual_flags_exclusive_amended 5 5 0 false true (some ⟨.server, "s", none⟩)
      rfl (fun _ => by omega)).2.2.2.2.1⟩

/-- Tail of `discriminateError` once the abort, offline, network and
timeout rules have all failed: classification by the HTTP status
embedded in the message. -/
def statusStage : Option Nat → SearchError
  | some statusCode =>
    if statusCode = 429 then
      ⟨.rate_limit, "API rate limit exceeded.", none⟩
    else if 500 ≤ statusCode ∧ statusCode < 600 then
      ⟨.server,
        "GitHub API is currently unavailable. Please try again later.",
        none⟩
    else if 400 ≤ statusCode ∧ statusCode < 500 then
      ⟨.client, "An error occurred. Please try again.", none⟩
    else
      ⟨.generic, "An error occurred. Please try again.", none⟩
  | none => ⟨.generic, "An error occurred. Please try again.", none⟩

/-- When the first five rules fail, the classifier falls through to
the status-code stage. -/
theorem discriminateError_statusStage (name message : String)
    (h1 : name ≠ "AbortError")
    (h3 : isNetworkMsg message = false)
    (h4 : isTimeoutSig name message = false) :
    discriminateError true (.jsError name message)
      = statusStage (matchApiStatus message) := by
  simp only [discriminateError]
  rw [if_neg h1]
  rw [if_neg (by simp : ¬((!true) = true))]
  rw [if_neg (by simp [h3])]
  rw [if_neg (by simp [h4])]
  cases h : matchApiStatus message <;> simp [h, statusStage]

/-- C6: the classifier applies its rules first-match-first in the
spec order: non-`Error` values are generic; then `AbortError` wins;
then offline; then the network message signature; then the timeout
signature; then an embedded HTTP status with 429 as rate limit, 5xx as
server, other 4xx as client; anything else is generic. -/
theorem classifier_first_match_order (online : Bool) (name message : String)
    (s : Nat) :
    ((discriminateError online .nonError).type = .generic)
    ∧ (name = "AbortError" →
        (discriminateError online (.jsError name message)).type = .abort)
    ∧ (name ≠ "AbortError" → online = false →
        (discriminateError online (.jsError name message)).type = .network)
    ∧ (name ≠ "AbortError" → online = true → isNetworkMsg message = true →
        (discriminateError online (.jsError name message)).type = .network)
    ∧ (name ≠ "AbortError" → online = true → isNetworkMsg message = false →
        isTimeoutSig name message = true →
        (discriminateError online (.jsError name message)).type = .timeout)
    ∧ (name ≠ "AbortError" → online = true → isNetworkMsg message = false →
        isTimeoutSig name message = false →
        matchApiStatus message = some 429 →
        (discriminateError online (.jsError name message)).type = .rate_limit)
    ∧ (name ≠ "AbortError" → online = true → isNetworkMsg message = false →
        isTimeoutSig name message = false →
        matchApiStatus message = some s → 500 ≤ s → s < 600 →
        (discriminateError online (.jsError name message)).type = .server)
    ∧ (name ≠ "AbortError" → online = true → isNetworkMsg message = false →
        isTimeoutSig name message = false →
        matchApiStatus message = some s → 400 ≤ s → s < 500 → s ≠ 429 →
        (discriminateError online (.jsError name message)).type = .client)
    ∧ (name ≠ "AbortError" → online = true → isNetworkMsg message = false →
        isTimeoutSig name message = false →
        matchApiStatus message = some s → s ≠ 429 → ¬(400 ≤ s ∧ s < 600) →
        (discriminateError online (.jsError name message)).type = .generic)
    ∧ (name ≠ "AbortError" → online = true → isNetworkMsg message = false →
        isTimeoutSig name message = false → matchApiStatus message = none →
        (discriminateError online (.jsError name message)).type = .generic) := by
  refine ⟨rfl, ?_, ?_, ?_, ?_, ?_, ?_, ?_, ?_, ?_⟩
  · intro h
    simp [discriminateError, h]
  · intro h1 h2
    subst h2
    simp [discriminateError, h1]
  · intro h1 h2 h3
    subst h2
    simp [discriminateError, h1, h3]
  · intro h1 h2 h3 h4
    subst h2
    simp [discriminateError, h1, h3, h4]
  · intro h1 h2 h3 h4 h5
    subst h2
    rw [discriminateError_statusStage name message h1 h3 h4, h5]
    simp [statusStage]
  · intro h1 h2 h3 h4 h5 h6 h7
    subst h2
    rw [discriminateError_statusStage name message h1 h3 h4, h5]
    simp only [statusStage]
    rw [if_neg (by omega), if_pos ⟨h6, h7⟩]
  · intro h1 h2 h3 h4 h5 h6 h7 h8
    subst h2
    rw [discriminateError_statusStage name message h1 h3 h4, h5]
    simp only [statusStage]
    rw [if_neg h8, if_neg (by omega), if_pos ⟨h6, h7⟩]
  · intro h1 h2 h3 h4 h5 h6 h7
    subst h2
    rw [discriminateError_statusStage name message h1 h3 h4, h5]
    simp only [statusStage]
    rw [if_neg h6, if_neg (by omega), if_neg (by omega)]
  · intro h1 h2 h3 h4 h5
    subst h2
    rw [discriminateError_statusStage name message h1 h3 h4, h5]
    simp [statusStage]

/-- C6 witness: the spec classification examples — `AbortError` gives
abort, status 429 gives rate limit, 503 gives server, 404 gives
client. -/
theorem classifier_first_match_order_witness :
    (discriminateError true (.jsError "AbortError" "aborted")).type = .abort
    ∧ (discriminateError true
        (.jsError "Error" "GitHub API error: 429")).type = .rate_limit
    ∧ (discriminateError true
        (.jsError "Error" "GitHub API error: 503")).type = .server
    ∧ (discriminateError true
        (.jsError "Error" "GitHub API error: 404")).type = .client :=
  ⟨(classifier_first_match_order true "AbortError" "aborted" 0).2.1 rfl,
    (classifier_first_match_order true "Error" "GitHub API error: 429"
      429).2.2.2.2.2.1 (by decide) rfl (by decide) (by decide) (by decide),
    (classifier_first_match_order true "Error" "GitHub API error: 503"
      503).2.2.2.2.2.2.1 (by decide) rfl (by decide) (by decide) (by decide)
      (by decide) (by decide),
    (classifier_first_match_order true "Error" "GitHub API error: 404"
      404).2.2.2.2.2.2.2.1 (by decide) rfl (by decide) (by decide) (by decide)
      (by decide) (by decide) (by decide)⟩

/-- C8: sorting is idempotent, and under the reference semantics of
`[...results].sort(...)` the input array is untouched: the reference
passed in still holds its original contents, the returned reference is
a fresh one, and the fresh array holds the sorted contents. -/
theorem sort_idempotent_nonmutating (x : List SearchResultItem)
    (s : JSStore) (r : Nat) (hr : r < s.arrays.length) :
    sortResultsAlphabetically (sortResultsAlphabetically x)
      = sortResultsAlphabetically x
    ∧ readArr (sortResultsRef s r).1 r = readArr s r
    ∧ (sortResultsRef s r).2 ≠ r
    ∧ readArr (sortResultsRef s r).1 (sortResultsRef s r).2
        = sortResultsAlphabetically (readArr s r) := by
  refine ⟨?_, ?_, ?_, ?_⟩
  · unfold sortResultsAlphabetically
    exact List.mergeSort_of_sorted
      (List.sorted_mergeSort itemLe_trans itemLe_total x)
  · simp only [sortResultsRef, readArr]
    rw [List.getElem?_set_ne (by omega), List.getElem?_append, if_pos hr]
  · simp only [sortResultsRef]
    omega
  · simp only [sortResultsRef, readArr]
    rw [List.getElem?_set_self (by simp)]
    rfl

/-- C8 witness: a two-element store entry. -/
theorem sort_idempotent_nonmutating_witness :
    (0 < (JSStore.mk [[⟨"repo:1", true, "b", "", "u1", some 3⟩,
        ⟨"user:2", false, "a", "", "u2", none⟩]]).arrays.length)
    ∧ readArr
        (sortResultsRef
          ⟨[[⟨"repo:1", true, "b", "", "u1", some 3⟩,
            ⟨"user:2", false, "a", "", "u2", none⟩]]⟩ 0).1 0
      = readArr
          ⟨[[⟨"repo:1", true, "b", "", "u1", some 3⟩,
            ⟨"user:2", false, "a", "", "u2", none⟩]]⟩ 0
    ∧ (sortResultsRef
        ⟨[[⟨"repo:1", true, "b", "", "u1", some 3⟩,
          ⟨"user:2", false, "a", "", "u2", none⟩]]⟩ 0).2 ≠ 0 :=
  ⟨by decide,
    (sort_idempotent_nonmutating []
      ⟨[[⟨"repo:1", true, "b", "", "u1", some 3⟩,
        ⟨"user:2", false, "a", "", "u2", none⟩]]⟩ 0 (by decide)).2.1,
    (sort_idempotent_nonmutating []
      ⟨[[⟨"repo:1", true, "b", "", "u1", some 3⟩,
        ⟨"user:2", false, "a", "", "u2", none⟩]]⟩ 0 (by decide)).2.2.1⟩

/-- A 5xx transport message triggers neither no-retry guard of the
retry predicate. -/
theorem apiError5xx_guard :
    ∀ s : Nat, s < 600 → 500 ≤ s →
      (includesB (apiErrorMessage s) "429"
        || (includesB (apiErrorMessage s) "GitHub API error"
            && has4xx (apiErrorMessage s))) = false := by
  decide

/-- A 4xx transport message triggers a no-retry guard of the retry
predicate. -/
theorem apiError4xx_guard :
    ∀ s : Nat, s < 500 → 400 ≤ s →
      (includesB (apiErrorMessage s) "429"
        || (includesB (apiErrorMessage s) "GitHub API error"
            && has4xx (apiErrorMessage s))) = true := by
  decide

/-- C9: the retry policy never retries an abort error nor any outcome
carrying an HTTP 4xx status (429 included); other transport failures
(5xx statuses, network failures, non-`Error` rejections) retry exactly
while fewer than 3 failures have occurred; and the delay for attempt
`i` is `min(1000·2^i, 30000)` milliseconds. -/
theorem retry_policy (n : Nat) (name message : String) (s : Nat) :
    (shouldRetry n (.jsError "AbortError" message) = false)
    ∧ (name ≠ "AbortError" → 400 ≤ s → s < 500 →
        shouldRetry n (.jsError name (apiErrorMessage s)) = false)
    ∧ (name ≠ "AbortError" → 500 ≤ s → s < 600 →
        shouldRetry n (.jsError name (apiErrorMessage s)) = decide (n < 3))
    ∧ (name ≠ "AbortError" →
        shouldRetry n (.jsError name "Failed to fetch") = decide (n < 3))
    ∧ (shouldRetry n .nonError = decide (n < 3))
    ∧ (∀ i : Nat, retryDelay i = min (1000 * 2 ^ i) 30000) := by
  refine ⟨?_, ?_, ?_, ?_, ?_, fun _ => rfl⟩
  · simp [shouldRetry]
  · intro h1 h2 h3
    simp only [shouldRetry]
    rw [if_neg h1, if_pos (apiError4xx_guard s h3 h2)]
  · intro h1 h2 h3
    simp only [shouldRetry]
    rw [if_neg h1, if_neg (by simp [apiError5xx_guard s h3 h2])]
  · intro h1
    simp only [shouldRetry]
    rw [if_neg h1, if_neg (by decide)]
  · rfl

/-- C9 witness: a 404 is never retried, a 503 retries on failure
count 0, and the second retry waits 4 seconds. -/
theorem retry_policy_witness :
    shouldRetry 0 (.jsError "Error" (apiErrorMessage 404)) = false
    ∧ shouldRetry 0 (.jsError "Error" (apiErrorMessage 503)) = decide (0 < 3)
    ∧ retryDelay 2 = min (1000 * 2 ^ 2) 30000 :=
  ⟨(retry_policy 0 "Error" "m" 404).2.1 (by decide) (by decide) (by decide),
    (retry_policy 0 "Error" "m" 503).2.2.1 (by decide) (by decide) (by decide),
    (retry_policy 0 "Error" "m" 0).2.2.2.2.2 2⟩

end GHAC
